import Mathlib

/-!
Shallow embedding of the game-state core of `snake_game.py` (the Snake, Food
and Game classes), together with theorems checking the specification's claims
about it.

Modelling conventions:
* A grid cell is a pair of integers `(x, y)`, as in the Python tuples; the
  head can leave the grid (e.g. x = -1), so cells are `ℤ × ℤ`.
* The deque `Snake.body` becomes a `List Cell`, index 0 = tail, last = head,
  exactly as in the source (`append` = append at the end, `popleft` =
  drop the first element).
* `random.randint(0, GRID_WIDTH - 1)` / `random.randint(0, GRID_HEIGHT - 1)`
  are modelled by an oracle: a finite list of draws, each a pair
  `Fin GRID_WIDTH × Fin GRID_HEIGHT` (randint's contract guarantees the
  range).  `Food.spawn` consumes draws until one is accepted; returning
  `none` means the `while True` loop is still running after exhausting the
  modelled draws, i.e. no finite prefix of the random stream has terminated
  it.
* Mutating methods become functions from the object state to the new state;
  `Game.update` (the tick) and `Game.reset_game` also take the random draws
  and return `Option Game` (`none` = the embedded spawn loop did not
  terminate within the given draws).
-/

set_option maxRecDepth 8000

namespace SnakeGame

/-- A grid cell `(x, y)`, Python's `(x, y)` tuples. -/
abbrev Cell : Type := ℤ × ℤ

/-- Constant `WINDOW_WIDTH = 800` from the source. -/
def WINDOW_WIDTH : ℕ := 800

/-- Constant `WINDOW_HEIGHT = 600` from the source. -/
def WINDOW_HEIGHT : ℕ := 600

/-- Constant `GRID_SIZE = 20` from the source. -/
def GRID_SIZE : ℕ := 20

/-- Constant `GRID_WIDTH = WINDOW_WIDTH // GRID_SIZE` (= 40). -/
def GRID_WIDTH : ℕ := WINDOW_WIDTH / GRID_SIZE

/-- Constant `GRID_HEIGHT = WINDOW_HEIGHT // GRID_SIZE` (= 30). -/
def GRID_HEIGHT : ℕ := WINDOW_HEIGHT / GRID_SIZE

/-- Constant `INITIAL_SNAKE_LENGTH = 3` from the source. -/
def INITIAL_SNAKE_LENGTH : ℕ := 3

/-- The `Direction` enum. -/
inductive Direction : Type where
  | UP : Direction
  | DOWN : Direction
  | LEFT : Direction
  | RIGHT : Direction
deriving DecidableEq, Repr

/-- The unit delta associated with each `Direction` member
(`Direction.UP.value == (0, -1)` and so on). -/
def Direction.value : Direction → ℤ × ℤ
  | .UP => (0, -1)
  | .DOWN => (0, 1)
  | .LEFT => (-1, 0)
  | .RIGHT => (1, 0)

/-- The `opposite_directions` dictionary from `Snake.change_direction`,
as the total lookup function it denotes. -/
def opposite_directions : Direction → Direction
  | .UP => .DOWN
  | .DOWN => .UP
  | .LEFT => .RIGHT
  | .RIGHT => .LEFT

/-- The `Snake` object state: `body` (deque, tail first, head last),
`direction`, `grow_pending`. -/
structure Snake : Type where
  body : List Cell
  direction : Direction
  grow_pending : Bool
deriving DecidableEq, Repr

/-- The body built by `Snake.reset`: for `i` in
`range(INITIAL_SNAKE_LENGTH - 1, -1, -1)` append `(start_x - i, start_y)`,
with `start_x = GRID_WIDTH // 2`, `start_y = GRID_HEIGHT // 2`. -/
def resetBody : List Cell :=
  (List.range INITIAL_SNAKE_LENGTH).reverse.map
    (fun i => (((GRID_WIDTH / 2 : ℕ) : ℤ) - (i : ℤ), ((GRID_HEIGHT / 2 : ℕ) : ℤ)))

/-- Method `Snake.reset`: clears the body, rebuilds it tail-to-head ending at the
grid's center, sets direction RIGHT, clears `grow_pending`.  The prior state
is discarded entirely, as in the Python method. -/
def Snake.reset (_s : Snake) : Snake :=
  { body := resetBody, direction := .RIGHT, grow_pending := false }

/-- Method `Snake.get_head`: `self.body[-1]`.  The body is never empty in the
program; on an empty list we return the junk cell `(0, 0)` (never relied
upon: theorems that need the head assume `body ≠ []`). -/
def Snake.get_head (s : Snake) : Cell :=
  s.body.getLastD (0, 0)

/-- The local `new_head` of `Snake.move`: the head shifted by the current
direction's unit delta. -/
def Snake.new_head (s : Snake) : Cell :=
  (s.get_head.1 + s.direction.value.1, s.get_head.2 + s.direction.value.2)

/-- Method `Snake.move`: compute `new_head = head + direction.value`, append it,
then `popleft` the tail unless `grow_pending` (in which case clear
`grow_pending`). -/
def Snake.move (s : Snake) : Snake :=
  if !s.grow_pending then
    { s with body := (s.body ++ [s.new_head]).drop 1 }
  else
    { s with body := s.body ++ [s.new_head], grow_pending := false }

/-- Method `Snake.grow`: mark the snake to grow on the next move. -/
def Snake.grow (s : Snake) : Snake :=
  { s with grow_pending := true }

/-- Method `Snake.change_direction`: set the direction unless the request is the
opposite of the current direction. -/
def Snake.change_direction (s : Snake) (new_direction : Direction) : Snake :=
  if new_direction ≠ opposite_directions s.direction then
    { s with direction := new_direction }
  else
    s

/-- Method `Snake.check_collision`: true if the head is outside
`[0, GRID_WIDTH) × [0, GRID_HEIGHT)`, or the head occurs in
`list(self.body)[:-1]` (the body without its last element). -/
def Snake.check_collision (s : Snake) : Bool :=
  if s.get_head.1 < 0 ∨ (GRID_WIDTH : ℤ) ≤ s.get_head.1 ∨
      s.get_head.2 < 0 ∨ (GRID_HEIGHT : ℤ) ≤ s.get_head.2 then
    true
  else if s.get_head ∈ s.body.dropLast then
    true
  else
    false

/-- One draw of the random source: the pair
(`random.randint(0, GRID_WIDTH - 1)`, `random.randint(0, GRID_HEIGHT - 1)`). -/
abbrev RandDraw : Type := Fin GRID_WIDTH × Fin GRID_HEIGHT

/-- The cell a draw denotes. -/
def drawCell (p : RandDraw) : Cell := ((p.1.val : ℤ), (p.2.val : ℤ))

/-- Method `Food.spawn(snake_body)`: draw random cells until one satisfies
`snake_body is None or (x, y) not in snake_body`, and set the position to
it.  `draws` is the finite prefix of the random stream we model; `none`
means the `while True` loop has not terminated within those draws. -/
def Food.spawn : List RandDraw → Option (List Cell) → Option Cell
  | [], _ => none
  | p :: _, none => some (drawCell p)
  | p :: rest, some snake_body =>
      if drawCell p ∈ snake_body then Food.spawn rest (some snake_body)
      else some (drawCell p)

/-- The `Game` state the core manipulates: the snake, the food position,
`score`, `high_score` and the `game_over` flag (`phase` in the spec:
`game_over = false` is RUNNING, `true` is GAME_OVER). -/
structure Game : Type where
  snake : Snake
  food : Cell
  score : ℕ
  high_score : ℕ
  game_over : Bool
deriving DecidableEq, Repr

/-- Method `Game.update` (the tick): no-op when `game_over`; otherwise move the
snake; on collision set `game_over` and raise `high_score` when
`score > high_score`; otherwise, when the head is on the food, grow, add 10
to the score and respawn the food avoiding `snake.body`. -/
def Game.update (draws : List RandDraw) (g : Game) : Option Game :=
  if g.game_over then some g
  else
    let s := g.snake.move
    if s.check_collision then
      some { g with
        snake := s
        game_over := true
        high_score := if g.score > g.high_score then g.score else g.high_score }
    else if s.get_head = g.food then
      match Food.spawn draws (some s.body) with
      | some p => some { g with snake := s.grow, score := g.score + 10, food := p }
      | none => none
    else
      some { g with snake := s }

/-- Method `Game.reset_game`: reset the snake, respawn the food avoiding the new
body, zero the score, clear `game_over`; `high_score` is not written. -/
def Game.reset_game (draws : List RandDraw) (g : Game) : Option Game :=
  let s := g.snake.reset
  match Food.spawn draws (some s.body) with
  | some p => some { g with snake := s, food := p, score := 0, game_over := false }
  | none => none

/-- The direction-key branch of `Game.handle_events`: forwarded to
`snake.change_direction` only when the game is not over. -/
def Game.apply_direction (g : Game) (d : Direction) : Game :=
  if g.game_over then g else { g with snake := g.snake.change_direction d }

/-- Iterated ticks: run `Game.update` once per element of `dss`, each tick
with its own random draws. -/
def Game.updateIter : List (List RandDraw) → Game → Option Game
  | [], g => some g
  | ds :: dss, g => (Game.update ds g).bind (Game.updateIter dss)

/-- Every cell of the 40×30 grid: the occupancy set of a snake that fills
the whole board. -/
def fullGridCells : List Cell :=
  (List.range GRID_WIDTH).flatMap
    (fun (x : ℕ) => (List.range GRID_HEIGHT).map (fun (y : ℕ) => ((x : ℤ), (y : ℤ))))

/-! ### Concrete states for the scenario claims -/

/-- A draw stream whose first sample is the cell `(0, 0)`. -/
def scenarioDraws : List RandDraw := [(⟨0, by decide⟩, ⟨0, by decide⟩)]

/-- The C1 scenario start state: snake `[(18,15),(19,15),(20,15)]` heading
RIGHT, food at `(21,15)`, score 0, running. -/
def scenarioGame : Game :=
  { snake := Snake.mk [(18, 15), (19, 15), (20, 15)] .RIGHT false,
    food := (21, 15), score := 0, high_score := 0, game_over := false }

/-- The state the code actually produces from `scenarioGame` after one tick
with `scenarioDraws`. -/
def scenarioAfter : Game :=
  { snake := Snake.mk [(19, 15), (20, 15), (21, 15)] .RIGHT true,
    food := (0, 0), score := 10, high_score := 0, game_over := false }

/-- A running state about to hit the left wall, with `score > high_score`. -/
def collideGame : Game :=
  { snake := Snake.mk [(2, 15), (1, 15), (0, 15)] .LEFT false,
    food := (5, 5), score := 30, high_score := 10, game_over := false }

/-- The state the code produces from `collideGame` after the colliding
tick. -/
def collideAfter : Game :=
  { snake := Snake.mk [(1, 15), (0, 15), (-1, 15)] .LEFT false,
    food := (5, 5), score := 30, high_score := 30, game_over := true }

/-- An arbitrary messy state used as the argument of `reset_game`. -/
def anyGame : Game :=
  { snake := Snake.mk [(0, 0)] .UP true, food := (3, 3), score := 7,
    high_score := 9, game_over := true }

/-- The state `reset_game` produces from `anyGame` with `scenarioDraws`. -/
def anyGameReset : Game :=
  { snake := Snake.mk [(18, 15), (19, 15), (20, 15)] .RIGHT false,
    food := (0, 0), score := 0, high_score := 9, game_over := false }

/-- A finished (GAME_OVER) state. -/
def overGame : Game :=
  { snake := Snake.mk [(5, 5)] .RIGHT false, food := (1, 1), score := 20,
    high_score := 20, game_over := true }

/-! ### Helper lemmas -/

/-- A drawn cell is inside the grid: `random.randint` only produces values
in `[0, GRID_WIDTH - 1]` resp. `[0, GRID_HEIGHT - 1]`. -/
theorem drawCell_in_bounds (p : RandDraw) :
    0 ≤ (drawCell p).1 ∧ (drawCell p).1 < (GRID_WIDTH : ℤ) ∧
    0 ≤ (drawCell p).2 ∧ (drawCell p).2 < (GRID_HEIGHT : ℤ) := by
  simp only [drawCell]
  refine ⟨Int.natCast_nonneg _, ?_, Int.natCast_nonneg _, ?_⟩
  · exact_mod_cast p.1.isLt
  · exact_mod_cast p.2.isLt

/-- A successful spawn with an occupancy list avoids that list. -/
theorem spawn_not_mem {draws : List RandDraw} {occ : List Cell} {c : Cell}
    (h : Food.spawn draws (some occ) = some c) : c ∉ occ := by
  induction draws with
  | nil => simp [Food.spawn] at h
  | cons p rest ih =>
      by_cases hp : drawCell p ∈ occ
      · rw [Food.spawn, if_pos hp] at h
        exact ih h
      · rw [Food.spawn, if_neg hp] at h
        cases h
        exact hp

/-- Every cell of a drawn sample lies in `fullGridCells`. -/
theorem drawCell_mem_fullGridCells (p : RandDraw) : drawCell p ∈ fullGridCells := by
  rw [fullGridCells, List.mem_flatMap]
  refine ⟨p.1.val, List.mem_range.mpr p.1.isLt, ?_⟩
  rw [List.mem_map]
  exact ⟨p.2.val, List.mem_range.mpr p.2.isLt, rfl⟩

/-- With a non-empty body, `move` yields the old body (tail dropped unless
growing) with the new head appended at the end: append happens before the
tail removal, so the element removed is the old tail. -/
theorem Snake.move_body (s : Snake) (h : s.body ≠ []) :
    (s.move).body =
      (if s.grow_pending then s.body else s.body.drop 1) ++ [s.new_head] := by
  obtain ⟨body, dir, gp⟩ := s
  cases gp with
  | false =>
      cases body with
      | nil => exact absurd rfl h
      | cons a t => simp [Snake.move]
  | true => simp [Snake.move]

/-- After `move`, `grow_pending` is always false. -/
theorem Snake.move_grow_pending (s : Snake) : (s.move).grow_pending = false := by
  obtain ⟨body, dir, gp⟩ := s
  cases gp with
  | false => simp [Snake.move]
  | true => simp [Snake.move]

/-- After `move` on a non-empty body, the head is the freshly appended
`new_head`. -/
theorem Snake.move_get_head (s : Snake) (h : s.body ≠ []) :
    (s.move).get_head = s.new_head := by
  rw [Snake.get_head, Snake.move_body s h, List.getLastD_concat]

/-- Moving leaves the direction unchanged. -/
theorem Snake.move_direction (s : Snake) : (s.move).direction = s.direction := by
  obtain ⟨body, dir, gp⟩ := s
  cases gp with
  | false => simp [Snake.move]
  | true => simp [Snake.move]

/-- Restating `check_collision` as a proposition: wall test or membership of the head
in the body without its last element. -/
theorem check_collision_eq_true_iff (s : Snake) :
    s.check_collision = true ↔
      (s.get_head.1 < 0 ∨ (GRID_WIDTH : ℤ) ≤ s.get_head.1 ∨
       s.get_head.2 < 0 ∨ (GRID_HEIGHT : ℤ) ≤ s.get_head.2) ∨
      s.get_head ∈ s.body.dropLast := by
  unfold Snake.check_collision
  split_ifs with h1 h2
  · simp [h1]
  · simp [h1, h2]
  · simp [h1, h2]

/-! ### Claims -/

/-- Claim C3: for every snake state with non-empty body, `check_collision()`
returns true iff the head `(head_x, head_y)` satisfies `head_x < 0` or
`head_x ≥ GRID_WIDTH` or `head_y < 0` or `head_y ≥ GRID_HEIGHT`, or the head
cell occurs at some body index other than the last (head) index. -/
theorem C3_check_collision_characterization (s : Snake) (h : s.body ≠ []) :
    s.check_collision = true ↔
      (s.get_head.1 < 0 ∨ (GRID_WIDTH : ℤ) ≤ s.get_head.1 ∨
       s.get_head.2 < 0 ∨ (GRID_HEIGHT : ℤ) ≤ s.get_head.2) ∨
      ∃ i : ℕ, ∃ hi : i < s.body.length,
        i ≠ s.body.length - 1 ∧ s.body.get ⟨i, hi⟩ = s.get_head := by
  rw [check_collision_eq_true_iff]
  have hlen : 0 < s.body.length := List.length_pos.mpr h
  constructor
  · rintro (hw | hm)
    · exact Or.inl hw
    · right
      rw [List.mem_iff_getElem] at hm
      obtain ⟨n, hn, he⟩ := hm
      have hn1 : n < s.body.length - 1 := by
        simpa [List.length_dropLast] using hn
      refine ⟨n, by omega, by omega, ?_⟩
      rw [List.get_eq_getElem, ← List.getElem_dropLast s.body n hn]
      exact he
  · rintro (hw | ⟨i, hi, hne, he⟩)
    · exact Or.inl hw
    · right
      rw [List.mem_iff_getElem]
      have hi1 : i < s.body.dropLast.length := by
        rw [List.length_dropLast]; omega
      refine ⟨i, hi1, ?_⟩
      rw [List.getElem_dropLast]
      rw [List.get_eq_getElem] at he
      exact he

/-- Witness for C3 at a concrete colliding snake: body
`[(5,5),(6,5),(5,5)]` has its head `(5,5)` again at index 0. -/
theorem C3_witness :
    (Snake.mk [(5, 5), (6, 5), (5, 5)] .RIGHT false).check_collision = true :=
  (C3_check_collision_characterization
      (Snake.mk [(5, 5), (6, 5), (5, 5)] .RIGHT false) (by decide)).mpr
    (Or.inr ⟨0, by decide, by decide, by decide⟩)

/-- Claim C4: for every snake with non-empty body, `move()` preserves the
body length when `grow_pending` was false and increases it by one when it
was true; afterwards `grow_pending` is false, the new head is the old head
plus the heading's unit delta, and the new head is appended before the tail
removal (the post body is the old body, minus its first element unless
growing, with the new head appended at the end). -/
theorem C4_move_semantics (s : Snake) (h : s.body ≠ []) :
    ((s.grow_pending = false → (s.move).body.length = s.body.length) ∧
     (s.grow_pending = true → (s.move).body.length = s.body.length + 1)) ∧
    (s.move).grow_pending = false ∧
    (s.move).get_head =
      (s.get_head.1 + s.direction.value.1, s.get_head.2 + s.direction.value.2) ∧
    (s.move).body =
      (if s.grow_pending then s.body else s.body.drop 1) ++
        [(s.get_head.1 + s.direction.value.1, s.get_head.2 + s.direction.value.2)] := by
  have hb := Snake.move_body s h
  have hh := Snake.move_get_head s h
  have hlen : 0 < s.body.length := List.length_pos.mpr h
  refine ⟨⟨?_, ?_⟩, Snake.move_grow_pending s, ?_, ?_⟩
  · intro hg
    rw [hb, hg]
    simp only [if_neg Bool.false_ne_true, List.length_append, List.length_drop,
      List.length_singleton]
    omega
  · intro hg
    rw [hb, hg]
    simp
  · simpa [Snake.new_head] using hh
  · simpa [Snake.new_head] using hb

/-- Witness for C4: a concrete non-growing move keeps length 2, a concrete
growing move reaches length 3. -/
theorem C4_witness :
    (Snake.mk [(5, 5), (6, 5)] .RIGHT false).move.body.length = 2 ∧
    (Snake.mk [(5, 5), (6, 5)] .RIGHT true).move.body.length = 3 :=
  ⟨((C4_move_semantics (Snake.mk [(5, 5), (6, 5)] .RIGHT false)
        (by decide)).1.1 rfl).trans (by decide),
   ((C4_move_semantics (Snake.mk [(5, 5), (6, 5)] .RIGHT true)
        (by decide)).1.2 rfl).trans (by decide)⟩

/-- Claim C5: `change_direction(d)` sets the heading to `d` when `d` is not
the opposite of the current heading, and leaves the snake entirely
unchanged (no error, no other state change) when `d` is the opposite. -/
theorem C5_change_direction_semantics (s : Snake) (d : Direction) :
    (d ≠ opposite_directions s.direction →
      s.change_direction d = { s with direction := d }) ∧
    (d = opposite_directions s.direction → s.change_direction d = s) := by
  constructor
  · intro hd
    rw [Snake.change_direction, if_pos hd]
  · intro hd
    rw [Snake.change_direction, if_neg (fun hn => hn hd)]

/-- Witness for C5: from heading RIGHT, a request UP is accepted and a
request LEFT (the opposite) is silently dropped. -/
theorem C5_witness :
    (Snake.mk [(5, 5)] .RIGHT false).change_direction .UP =
      Snake.mk [(5, 5)] .UP false ∧
    (Snake.mk [(5, 5)] .RIGHT false).change_direction .LEFT =
      Snake.mk [(5, 5)] .RIGHT false :=
  ⟨(C5_change_direction_semantics (Snake.mk [(5, 5)] .RIGHT false) .UP).1
      (by decide),
   (C5_change_direction_semantics (Snake.mk [(5, 5)] .RIGHT false) .LEFT).2
      (by decide)⟩

/-- Claim C6: a `move()` after which `check_collision()` is false preserves
pairwise distinctness of the body cells, whether or not growth was
pending. -/
theorem C6_move_preserves_nodup (s : Snake) (hnd : s.body.Nodup)
    (hcol : (s.move).check_collision = false) : (s.move).body.Nodup := by
  by_cases hb : s.body = []
  · obtain ⟨body, dir, gp⟩ := s
    simp only at hb
    subst hb
    cases gp with
    | false => simp [Snake.move]
    | true => simp [Snake.move]
  · have hbody := Snake.move_body s hb
    have hhead := Snake.move_get_head s hb
    have hmem : (s.move).get_head ∉ (s.move).body.dropLast := by
      intro hm
      have hc := (check_collision_eq_true_iff (s.move)).mpr (Or.inr hm)
      rw [hcol] at hc
      simp at hc
    rw [hbody, List.dropLast_concat, hhead] at hmem
    rw [hbody, List.nodup_append]
    have hsub : (if s.grow_pending then s.body else s.body.drop 1).Nodup := by
      split
      · exact hnd
      · exact (List.drop_sublist 1 s.body).nodup hnd
    refine ⟨hsub, List.nodup_singleton _, ?_⟩
    intro a ha hmem1
    rw [List.mem_singleton] at hmem1
    subst hmem1
    exact hmem ha

/-- Witness for C6: a concrete distinct-bodied snake stays distinct after
a collision-free move. -/
theorem C6_witness : (Snake.mk [(5, 5), (6, 5)] .RIGHT false).move.body.Nodup :=
  C6_move_preserves_nodup (Snake.mk [(5, 5), (6, 5)] .RIGHT false)
    (by decide) (by decide)

/-- Claim C1 (counterexample): in the concrete scenario (snake
`[(18,15),(19,15),(20,15)]` heading RIGHT, food at `(21,15)`), one tick does
NOT produce the claimed body `[(18,15),(19,15),(20,15),(21,15)]`: the tail
`(18,15)` was already removed by `move()` before `grow()` merely set
`grow_pending`, so the body after the tick is `[(19,15),(20,15),(21,15)]`
(length 3). -/
theorem C1_counterexample :
    Game.update scenarioDraws scenarioGame = some scenarioAfter ∧
    scenarioAfter.snake.body = [(19, 15), (20, 15), (21, 15)] ∧
    scenarioAfter.snake.body ≠ [(18, 15), (19, 15), (20, 15), (21, 15)] := by
  refine ⟨by decide, by decide, by decide⟩

/-- Claim C1 (amended): with phase RUNNING, a tick performs `snake.move()`;
on collision the phase becomes GAME_OVER with
`high_score = max(high_score, score)` (the run-ended outcome observable to
the shell); otherwise, when the new head equals the food position, growth
is requested (`grow_pending` becomes true; the body itself is unchanged by
`grow`, so it keeps the post-move length), the score increases by exactly
10, and the food is respawned avoiding the snake's body.  In the concrete
scenario the post-tick body is `[(19,15),(20,15),(21,15)]` with
`grow_pending = true`, score 10, food not in the body, phase RUNNING. -/
theorem C1_tick_semantics :
    (∀ (draws : List RandDraw) (g : Game), g.game_over = false →
      ((g.snake.move).check_collision = true →
        Game.update draws g = some { g with
          snake := g.snake.move, game_over := true,
          high_score := max g.high_score g.score }) ∧
      ((g.snake.move).check_collision = false →
        (g.snake.move).get_head = g.food →
        ∀ g', Game.update draws g = some g' →
          g'.snake.body = (g.snake.move).body ∧
          g'.snake.grow_pending = true ∧
          g'.score = g.score + 10 ∧
          g'.high_score = g.high_score ∧
          g'.game_over = false ∧
          g'.food ∉ (g.snake.move).body) ∧
      ((g.snake.move).check_collision = false →
        (g.snake.move).get_head ≠ g.food →
        Game.update draws g = some { g with snake := g.snake.move })) ∧
    (∀ (draws : List RandDraw) (g' : Game),
      Game.update draws scenarioGame = some g' →
        g'.snake.body = [(19, 15), (20, 15), (21, 15)] ∧
        g'.snake.grow_pending = true ∧
        g'.score = 10 ∧
        g'.food ∉ g'.snake.body ∧
        g'.game_over = false) := by
  have main : ∀ (draws : List RandDraw) (g : Game), g.game_over = false →
      ((g.snake.move).check_collision = true →
        Game.update draws g = some { g with
          snake := g.snake.move, game_over := true,
          high_score := max g.high_score g.score }) ∧
      ((g.snake.move).check_collision = false →
        (g.snake.move).get_head = g.food →
        ∀ g', Game.update draws g = some g' →
          g'.snake.body = (g.snake.move).body ∧
          g'.snake.grow_pending = true ∧
          g'.score = g.score + 10 ∧
          g'.high_score = g.high_score ∧
          g'.game_over = false ∧
          g'.food ∉ (g.snake.move).body) ∧
      ((g.snake.move).check_collision = false →
        (g.snake.move).get_head ≠ g.food →
        Game.update draws g = some { g with snake := g.snake.move }) := by
    intro draws g hg
    refine ⟨?_, ?_, ?_⟩
    · intro hc
      have hmax : (if g.score > g.high_score then g.score else g.high_score) =
          max g.high_score g.score := by
        split <;> omega
      simp [Game.update, hg, hc, hmax]
    · intro hc hf g' hup
      simp only [Game.update, hg, Bool.false_eq_true, if_false, hc, hf, if_true] at hup
      cases hs : Food.spawn draws (some ((g.snake.move).body)) with
      | none => rw [hs] at hup; cases hup
      | some p =>
          rw [hs] at hup
          have hx := Option.some.inj hup
          subst hx
          refine ⟨rfl, rfl, rfl, rfl, rfl, ?_⟩
          exact spawn_not_mem hs
    · intro hc hf
      simp [Game.update, hg, hc, hf]
  refine ⟨main, ?_⟩
  intro draws g' hup
  have h := (main draws scenarioGame rfl).2.1 (by decide) (by decide) g' hup
  obtain ⟨h1, h2, h3, h4, h5, h6⟩ := h
  refine ⟨h1.trans (by decide), h2, h3.trans (by decide), ?_, h5⟩
  rw [h1]
  exact h6

/-- Witness for C1: the concrete scenario tick, checked on the produced
state `scenarioAfter`. -/
theorem C1_witness :
    scenarioAfter.snake.body = [(19, 15), (20, 15), (21, 15)] ∧
    scenarioAfter.snake.grow_pending = true ∧
    scenarioAfter.score = 10 ∧
    scenarioAfter.food ∉ scenarioAfter.snake.body ∧
    scenarioAfter.game_over = false :=
  C1_tick_semantics.2 scenarioDraws scenarioAfter (by decide)

/-- Claim C2 (the code contradicts it): `Food.spawn` has NO retry cap — it
is a bare `while True` loop.  When the occupied list covers the entire
40×30 grid, no finite sequence of random draws terminates the loop (every
draw is rejected), so no board-full condition is ever surfaced: the result
after any number of retries is still `none` (still looping), never a
terminal signal. -/
theorem C2_spawn_unbounded_on_full_grid (draws : List RandDraw) :
    Food.spawn draws (some fullGridCells) = none := by
  induction draws with
  | nil => rfl
  | cons p rest ih =>
      rw [Food.spawn, if_pos (drawCell_mem_fullGridCells p)]
      exact ih

/-- Claim C7: `high_score` becomes `max(high_score, score)` exactly at the
run-ending tick; every other tick leaves it unchanged; `reset_game` leaves
`high_score` untouched while zeroing `score`; direction input does not
touch either. -/
theorem C7_high_score_frame :
    (∀ (draws : List RandDraw) (g g' : Game),
        Game.reset_game draws g = some g' →
          g'.high_score = g.high_score ∧ g'.score = 0) ∧
    (∀ (draws : List RandDraw) (g g' : Game),
        Game.update draws g = some g' →
          g'.high_score =
            if g.game_over = false ∧ (g.snake.move).check_collision = true
            then max g.high_score g.score else g.high_score) ∧
    (∀ (g : Game) (d : Direction),
        (g.apply_direction d).high_score = g.high_score ∧
        (g.apply_direction d).score = g.score) := by
  refine ⟨?_, ?_, ?_⟩
  · intro draws g g' h
    simp only [Game.reset_game] at h
    cases hs : Food.spawn draws (some ((g.snake.reset).body)) with
    | none => rw [hs] at h; cases h
    | some p =>
        rw [hs] at h
        have hx := Option.some.inj h
        subst hx
        exact ⟨rfl, rfl⟩
  · intro draws g g' h
    simp only [Game.update] at h
    by_cases hg : g.game_over = true
    · rw [if_pos hg] at h
      have hx := Option.some.inj h
      subst hx
      simp [hg]
    · rw [if_neg hg] at h
      have hg' : g.game_over = false := by
        revert hg; cases g.game_over <;> simp
      by_cases hc : (g.snake.move).check_collision = true
      · rw [if_pos hc] at h
        have hx := Option.some.inj h
        subst hx
        simp only [hg', hc, and_self, if_true]
        split <;> omega
      · rw [if_neg hc] at h
        by_cases hf : (g.snake.move).get_head = g.food
        · rw [if_pos hf] at h
          cases hs : Food.spawn draws (some ((g.snake.move).body)) with
          | none => rw [hs] at h; cases h
          | some p =>
              rw [hs] at h
              have hx := Option.some.inj h
              subst hx
              simp [hc]
        · rw [if_neg hf] at h
          have hx := Option.some.inj h
          subst hx
          simp [hc]
  · intro g d
    unfold Game.apply_direction
    split <;> exact ⟨rfl, rfl⟩

/-- Witness for C7: the colliding tick from `collideGame` raises
`high_score` to `max 10 30`; `reset_game` afterwards keeps it and zeroes
the score; a direction change touches neither. -/
theorem C7_witness :
    collideAfter.high_score = max 10 30 ∧
    (anyGameReset.high_score = anyGame.high_score ∧ anyGameReset.score = 0) ∧
    ((collideGame.apply_direction .UP).high_score = collideGame.high_score ∧
     (collideGame.apply_direction .UP).score = collideGame.score) := by
  refine ⟨?_, ?_, C7_high_score_frame.2.2 collideGame .UP⟩
  · have h := C7_high_score_frame.2.1 [] collideGame collideAfter (by decide)
    rw [h]; decide
  · exact C7_high_score_frame.1 scenarioDraws anyGame anyGameReset (by decide)

/-- Claim C8: after `reset_game`, the body is the three consecutive cells
`[(18,15),(19,15),(20,15)]` laid out tail first and ending at the grid's
center `(GRID_WIDTH // 2, GRID_HEIGHT // 2) = (20,15)` (so the head is the
center cell), the heading is RIGHT, `grow_pending` is false, the score is
0 and the phase is RUNNING. -/
theorem C8_reset_state :
    ∀ (draws : List RandDraw) (g g' : Game),
      Game.reset_game draws g = some g' →
        g'.snake.body = [(18, 15), (19, 15), (20, 15)] ∧
        g'.snake.body.length = INITIAL_SNAKE_LENGTH ∧
        g'.snake.get_head = (((GRID_WIDTH / 2 : ℕ) : ℤ), ((GRID_HEIGHT / 2 : ℕ) : ℤ)) ∧
        g'.snake.direction = Direction.RIGHT ∧
        g'.snake.grow_pending = false ∧
        g'.score = 0 ∧
        g'.game_over = false := by
  intro draws g g' h
  simp only [Game.reset_game] at h
  cases hs : Food.spawn draws (some ((g.snake.reset).body)) with
  | none => rw [hs] at h; cases h
  | some p =>
      rw [hs] at h
      have hx := Option.some.inj h
      subst hx
      refine ⟨?_, ?_, ?_, rfl, rfl, rfl, rfl⟩
      · simp only [Snake.reset]; decide
      · simp only [Snake.reset]; decide
      · simp only [Snake.reset, Snake.get_head]; decide

/-- Witness for C8: resetting from the arbitrary state `anyGame`. -/
theorem C8_witness :
    anyGameReset.snake.body = [(18, 15), (19, 15), (20, 15)] ∧
    anyGameReset.snake.body.length = INITIAL_SNAKE_LENGTH ∧
    anyGameReset.snake.get_head =
      (((GRID_WIDTH / 2 : ℕ) : ℤ), ((GRID_HEIGHT / 2 : ℕ) : ℤ)) ∧
    anyGameReset.snake.direction = Direction.RIGHT ∧
    anyGameReset.snake.grow_pending = false ∧
    anyGameReset.score = 0 ∧
    anyGameReset.game_over = false :=
  C8_reset_state scenarioDraws anyGame anyGameReset (by decide)

/-- Claim C9: with phase GAME_OVER, any number of ticks (each with
arbitrary random draws) returns the state unchanged in every field. -/
theorem C9_game_over_tick_noop :
    ∀ (dss : List (List RandDraw)) (g : Game), g.game_over = true →
      Game.updateIter dss g = some g := by
  intro dss g hg
  induction dss with
  | nil => rfl
  | cons ds dss ih =>
      have hu : Game.update ds g = some g := by
        simp [Game.update, hg]
      simp only [Game.updateIter, hu, Option.bind_some]
      exact ih

/-- Witness for C9: three ticks on a finished game change nothing. -/
theorem C9_witness :
    Game.updateIter [[], scenarioDraws, []] overGame = some overGame :=
  C9_game_over_tick_noop [[], scenarioDraws, []] overGame rfl

/-- Claim C10: every terminating `Food.spawn` call yields a position inside
the grid: `0 ≤ x < GRID_WIDTH` and `0 ≤ y < GRID_HEIGHT` (this covers the
initial spawn in `Food.__init__`, which calls `spawn()` with no occupancy
list, and every respawn during play). -/
theorem C10_spawn_in_bounds :
    ∀ (draws : List RandDraw) (occ : Option (List Cell)) (c : Cell),
      Food.spawn draws occ = some c →
        0 ≤ c.1 ∧ c.1 < (GRID_WIDTH : ℤ) ∧ 0 ≤ c.2 ∧ c.2 < (GRID_HEIGHT : ℤ) := by
  intro draws
  induction draws with
  | nil => intro occ c h; cases h
  | cons p rest ih =>
      intro occ c h
      cases occ with
      | none =>
          have hx := Option.some.inj h
          subst hx
          exact drawCell_in_bounds p
      | some occl =>
          by_cases hp : drawCell p ∈ occl
          · rw [Food.spawn, if_pos hp] at h
            exact ih (some occl) c h
          · rw [Food.spawn, if_neg hp] at h
            have hx := Option.some.inj h
            subst hx
            exact drawCell_in_bounds p

/-- Witness for C10: the very first spawn (no occupancy list), drawing the
cell `(5, 7)`. -/
theorem C10_witness :
    0 ≤ ((5 : ℤ), (7 : ℤ)).1 ∧ ((5 : ℤ), (7 : ℤ)).1 < (GRID_WIDTH : ℤ) ∧
    0 ≤ ((5 : ℤ), (7 : ℤ)).2 ∧ ((5 : ℤ), (7 : ℤ)).2 < (GRID_HEIGHT : ℤ) :=
  C10_spawn_in_bounds [(⟨5, by decide⟩, ⟨7, by decide⟩)] none
    ((5 : ℤ), (7 : ℤ)) (by decide)

end SnakeGame
